import Mathlib

/-!
Verification development for the multi-provider AI response orchestration
subsystem (AI controller, AI response model, AI service).

The JavaScript source is embedded shallowly:
* Mongoose documents become Lean structures; absent optional fields are `Option`.
* `Date.now()` readings are explicit `Nat` parameters (milliseconds).
* Nondeterministic inputs (upstream HTTP outcome, mock content) are parameters.
* `Model.findByIdAndUpdate` is a direct field patch: in Mongoose it triggers
  query middleware only, never the document `pre('save')` hook, so the
  statistics hook does not run on that path.  `document.save()` runs the hook.
-/

namespace Auroro

/-- The five provider keys, mirroring the string enum
`['gemini', 'openai', 'deepseek', 'microsoft', 'llama']`. -/
inductive AIModel
  | gemini
  | openai
  | deepseek
  | microsoft
  | llama
  deriving DecidableEq

/-- Per-model response status enum `['pending', 'success', 'error']`. -/
inductive RespStatus
  | pending
  | success
  | error
  deriving DecidableEq

/-- Token usage subdocument `{prompt, completion, total}` (defaults 0). -/
structure Tokens where
  prompt : Nat
  completion : Nat
  total : Nat
  deriving DecidableEq

/-- One `aiModelResponseSchema` subdocument.  `errorMessage` and `createdAt`
are `Option` because the JS objects may omit them. -/
structure ModelResponse where
  model : AIModel
  response : String
  status : RespStatus
  errorMessage : Option String
  tokens : Tokens
  responseTime : Nat
  isEdited : Bool
  createdAt : Option Nat
  deriving DecidableEq

/-- Overall status enum `['processing', 'completed', 'partial', 'failed']`;
`partialStatus` models the string value `'partial'`. -/
inductive OverallStatus
  | processing
  | completed
  | partialStatus
  | failed
  deriving DecidableEq

/-- The persisted `aiResponseSchema` document (fields the orchestration
subsystem reads or writes; `settings.enabledModels` is `enabledModels`). -/
structure AIResponseDoc where
  prompt : String
  projectId : Option Nat
  gemini_response : Option ModelResponse
  openai_response : Option ModelResponse
  deepseek_response : Option ModelResponse
  microsoft_response : Option ModelResponse
  llama_response : Option ModelResponse
  totalModels : Nat
  completedModels : Nat
  failedModels : Nat
  enabledModels : List AIModel
  selectedModel : Option AIModel
  overallStatus : OverallStatus
  startTime : Nat
  endTime : Option Nat
  totalDuration : Nat
  totalTokensUsed : Nat
  totalCost : Nat
  updatedAt : Nat
  deriving DecidableEq

/-- The fixed provider list `['gemini', 'openai', 'deepseek', 'microsoft', 'llama']`
hardcoded throughout the controller and model. -/
def allModels : List AIModel :=
  [.gemini, .openai, .deepseek, .microsoft, .llama]

/-- String key of a provider, as used in field names and messages. -/
def modelKey : AIModel → String
  | .gemini => "gemini"
  | .openai => "openai"
  | .deepseek => "deepseek"
  | .microsoft => "microsoft"
  | .llama => "llama"

/-- Read the dynamic field `aiResponse[model + \x7bsuffix\x7d]`, i.e. the
per-provider subdocument `<model>_response`. -/
def getResp (d : AIResponseDoc) (m : AIModel) : Option ModelResponse :=
  match m with
  | .gemini => d.gemini_response
  | .openai => d.openai_response
  | .deepseek => d.deepseek_response
  | .microsoft => d.microsoft_response
  | .llama => d.llama_response

/-- Write the per-provider subdocument `<model>_response` (`none` = `$unset`). -/
def setResp (d : AIResponseDoc) (m : AIModel) (r : Option ModelResponse) : AIResponseDoc :=
  match m with
  | .gemini => { d with gemini_response := r }
  | .openai => { d with openai_response := r }
  | .deepseek => { d with deepseek_response := r }
  | .microsoft => { d with microsoft_response := r }
  | .llama => { d with llama_response := r }

/-- Providers whose `<model>_response` subdocument is present (truthy). -/
def presentModels (d : AIResponseDoc) : List AIModel :=
  allModels.filter (fun m => (getResp d m).isSome)

/-- Count of present subdocuments with `status === 'success'`
(the `completed` accumulator of the pre-save hook). -/
def hookCompleted (d : AIResponseDoc) : Nat :=
  ((allModels.filterMap (getResp d)).filter (fun r => r.status == .success)).length

/-- Count of present subdocuments with `status === 'error'`
(the `failed` accumulator of the pre-save hook). -/
def hookFailed (d : AIResponseDoc) : Nat :=
  ((allModels.filterMap (getResp d)).filter (fun r => r.status == .error)).length

/-- Sum of `tokens.total` over `success` subdocuments
(the `totalTokens` accumulator of the pre-save hook; `?.total || 0`). -/
def hookTokens (d : AIResponseDoc) : Nat :=
  ((allModels.filterMap (getResp d)).filter (fun r => r.status == .success)).foldl
    (fun acc r => acc + r.tokens.total) 0

/-- Terminal condition of the pre-save hook: the branch structure
`completed === totalModels`, else `(completed > 0 || failed > 0) &&
completed + failed === totalModels`, collapses to this disjunction. -/
def termCond (d : AIResponseDoc) : Bool :=
  hookCompleted d == d.totalModels ||
    ((0 < hookCompleted d || 0 < hookFailed d) &&
      hookCompleted d + hookFailed d == d.totalModels)

/-- The `aiResponseSchema.pre('save')` statistics hook, run on every
`document.save()` at wall-clock time `now`.  `totalDuration` is
`endTime - startTime` (truncated subtraction; in JS the save time is not
before `startTime`). -/
def preSave (now : Nat) (d : AIResponseDoc) : AIResponseDoc :=
  let completed := hookCompleted d
  let failed := hookFailed d
  let d1 := { d with
    completedModels := completed
    failedModels := failed
    totalTokensUsed := hookTokens d }
  if completed = d.totalModels then
    { d1 with
      overallStatus := .completed
      endTime := some now
      totalDuration := now - d.startTime }
  else if 0 < completed ∨ 0 < failed then
    if completed + failed = d.totalModels then
      { d1 with
        overallStatus := if 0 < completed then .partialStatus else .failed
        endTime := some now
        totalDuration := now - d.startTime }
    else d1
  else d1

theorem getResp_setResp (d : AIResponseDoc) (a m : AIModel) (r : Option ModelResponse) :
    getResp (setResp d a r) m = if m = a then r else getResp d m := by
  cases a <;> cases m <;> simp [setResp, getResp]

theorem getResp_preSave (now : Nat) (d : AIResponseDoc) (m : AIModel) :
    getResp (preSave now d) m = getResp d m := by
  cases m <;> simp only [preSave, getResp] <;> (repeat' split) <;> rfl

theorem selectedModel_preSave (now : Nat) (d : AIResponseDoc) :
    (preSave now d).selectedModel = d.selectedModel := by
  simp only [preSave]; (repeat' split) <;> rfl

theorem enabledModels_preSave (now : Nat) (d : AIResponseDoc) :
    (preSave now d).enabledModels = d.enabledModels := by
  simp only [preSave]; (repeat' split) <;> rfl

/-! ## Submit (`generateAIResponse`) -/

/-- The pending subdocument written at creation:
`{ model, status: 'pending', response: '', createdAt: new Date() }`
(remaining fields take schema defaults). -/
def initPending (m : AIModel) (now : Nat) : ModelResponse :=
  { model := m
    response := ""
    status := .pending
    errorMessage := none
    tokens := ⟨0, 0, 0⟩
    responseTime := 0
    isEdited := false
    createdAt := some now }

/-- Outcome of the submit endpoint: HTTP 400 `'No AI models are configured
and available'`, or HTTP 201 with the freshly saved document (returned to the
caller before any provider call completes). -/
inductive SubmitOutcome
  | noProviders
  | created (d : AIResponseDoc)
  deriving DecidableEq

/-- The `generateAIResponse` controller, restricted to the orchestration core:
filters the requested models against the available providers, creates the
document with every surviving model `pending`, `totalModels` set to their
count and `overallStatus := 'processing'`, and saves it (running the
pre-save hook) before the background generation is dispatched.
`submitBaseDoc` is the `new AIResponse(...)` constructor argument with
schema defaults filled in; `generateAIResponse` below is the endpoint. -/
def submitBaseDoc (prompt : String) (projectId : Option Nat)
    (modelsToUse : List AIModel) (now : Nat) : AIResponseDoc :=
  { prompt := prompt
    projectId := projectId
    gemini_response := none
    openai_response := none
    deepseek_response := none
    microsoft_response := none
    llama_response := none
    totalModels := modelsToUse.length
    completedModels := 0
    failedModels := 0
    enabledModels := modelsToUse
    selectedModel := none
    overallStatus := .processing
    startTime := now
    endTime := none
    totalDuration := 0
    totalTokensUsed := 0
    totalCost := 0
    updatedAt := now }

/-- The document built by the `modelsToUse.forEach` loop: every surviving
model's subdocument set to `pending` on top of `submitBaseDoc`. -/
def submitPendingDoc (prompt : String) (projectId : Option Nat)
    (modelsToUse : List AIModel) (now : Nat) : AIResponseDoc :=
  modelsToUse.foldl (fun acc m => setResp acc m (some (initPending m now)))
    (submitBaseDoc prompt projectId modelsToUse now)

def generateAIResponse (prompt : String) (projectId : Option Nat)
    (requestedModels : List AIModel) (availableModels : List AIModel)
    (now : Nat) : SubmitOutcome :=
  let modelsToUse := requestedModels.filter (fun m => decide (m ∈ availableModels))
  if modelsToUse = [] then .noProviders
  else .created (preSave now (submitPendingDoc prompt projectId modelsToUse now))

/-- Projection of a submit outcome to the created document, if any. -/
def submitDoc : SubmitOutcome → Option AIResponseDoc
  | .noProviders => none
  | .created d => some d

/-! ## Background completion patches (`generateIndependentResponses`) -/

/-- One per-provider completion update: the argument of
`AIResponse.findByIdAndUpdate(responseId, { [model_response]: {...result,
createdAt: result.createdAt || new Date()}, updatedAt: new Date() })`.
`patchTime` is the `new Date()` captured when the update document was built. -/
structure CompletionPatch where
  model : AIModel
  result : ModelResponse
  patchTime : Nat
  deriving DecidableEq

/-- Apply a completion patch.  `findByIdAndUpdate` performs a direct field
set; it triggers no document middleware, so `preSave` does NOT run here. -/
def applyCompletionPatch (p : CompletionPatch) (d : AIResponseDoc) : AIResponseDoc :=
  let stored := { p.result with createdAt := some (p.result.createdAt.getD p.patchTime) }
  { setResp d p.model (some stored) with updatedAt := p.patchTime }

/-- The error subdocument written by the `catch` branch of the background
task: `{ model, status: 'error', response: '', errorMessage: error.message ||
'Failed to generate response', tokens: zeros, responseTime: 0, createdAt }`. -/
def bgErrorResult (m : AIModel) (errMsg : String) (now : Nat) : ModelResponse :=
  { model := m
    response := ""
    status := .error
    errorMessage := some (if errMsg = "" then "Failed to generate response" else errMsg)
    tokens := ⟨0, 0, 0⟩
    responseTime := 0
    isEdited := false
    createdAt := some now }

/-! ## Provider caller (`AIService.callOpenRouter`) -/

/-- The `usage` object of an upstream response; each subfield may be absent
(`prompt_tokens`, `completion_tokens`, `total_tokens`, defaulted with `|| 0`). -/
structure UpstreamUsage where
  promptTokens : Option Nat
  completionTokens : Option Nat
  totalTokens : Option Nat
  deriving DecidableEq

/-- A 2xx upstream response body: `choices[0].message.content` may be absent
(defaulted with `|| ''`) and `usage` may be absent (defaulted with `|| \x7b\x7d`). -/
structure UpstreamSuccess where
  content : Option String
  usage : Option UpstreamUsage
  deriving DecidableEq

/-- The `error.response.data` body attached to an axios failure:
`data.error?.message`, `data.message`, and `JSON.stringify(data)`. -/
structure UpstreamErrorBody where
  errorDetail : Option String
  message : Option String
  stringified : String
  deriving DecidableEq

/-- An axios failure: the generic transport `error.message` plus the optional
upstream body `error.response?.data`. -/
structure UpstreamFailure where
  transportMessage : String
  body : Option UpstreamErrorBody
  deriving DecidableEq

/-- Result of one upstream HTTP round trip. -/
inductive UpstreamOutcome
  | success (s : UpstreamSuccess)
  | failure (f : UpstreamFailure)
  deriving DecidableEq

/-- JavaScript `a || b` on an optional string: the empty string is falsy. -/
def jsOrString (a : Option String) (b : String) : String :=
  match a with
  | some s => if s = "" then b else s
  | none => b

/-- The error-detail extraction of the `catch` block: start from
`error.message`, but when `error.response?.data` exists prefer
`data.error?.message || data.message || JSON.stringify(data)`. -/
def extractErrorMessage (f : UpstreamFailure) : String :=
  match f.body with
  | some b => jsOrString b.errorDetail (jsOrString b.message b.stringified)
  | none => f.transportMessage

/-- Chat message roles used in the OpenRouter request body. -/
inductive Role
  | user
  | assistant
  deriving DecidableEq

/-- One entry of the `messages` array sent upstream. -/
structure ChatMsg where
  role : Role
  text : String
  deriving DecidableEq

/-- Build the `messages` array: when `previousResponseId` is supplied, the
prior document is looked up best-effort (`lookup`); a lookup failure is
logged and swallowed (`catch (err) \x7b console.error \x7d`), leaving the
history empty.  A found document contributes its prompt as a user turn and,
when that provider's prior response text is truthy, an assistant turn.
The current prompt is always appended last. -/
def buildMessages (name : AIModel) (prompt : String) (previousResponseId : Option Nat)
    (lookup : Except Unit (Option AIResponseDoc)) : List ChatMsg :=
  let hist : List ChatMsg :=
    match previousResponseId with
    | none => []
    | some _ =>
      match lookup with
      | .error _ => []
      | .ok none => []
      | .ok (some prev) =>
        let head : List ChatMsg := [⟨.user, prev.prompt⟩]
        match getResp prev name with
        | some r => if r.response = "" then head else head ++ [⟨.assistant, r.response⟩]
        | none => head
  hist ++ [⟨.user, prompt⟩]

/-- The result object returned from the `catch` block of `callOpenRouter`:
status `'error'`, empty response, zeroed tokens, message prefixed with the
model name, elapsed time up to the failure. -/
def errorCatchResult (name : AIModel) (msg : String) (elapsed : Nat) (now : Nat) : ModelResponse :=
  { model := name
    response := ""
    status := .error
    errorMessage := some (modelKey name ++ " Error: " ++ msg)
    tokens := ⟨0, 0, 0⟩
    responseTime := elapsed
    isEdited := false
    createdAt := some now }

/-- Parameters of `generateMockResponse` that the JS draws at random
(response text, token split, simulated latency). -/
structure MockParams where
  text : String
  tok : Tokens
  responseTime : Nat
  deriving DecidableEq

/-- The synthetic result of `generateMockResponse`: always `status:
'success'`, no `errorMessage`, no `createdAt` field. -/
def generateMockResponse (name : AIModel) (mock : MockParams) : ModelResponse :=
  { model := name
    response := mock.text
    status := .success
    errorMessage := none
    tokens := mock.tok
    responseTime := mock.responseTime
    isEdited := false
    createdAt := none }

/-- The unified provider caller `AIService.callOpenRouter`.  `enabled`,
`testMode` and `hasApiKey` come from the provider registry and environment;
`upstream` maps the request messages to the HTTP outcome; `elapsed` is
`Date.now() - startTime` at the moment the result is produced and `now` the
`new Date()` stamped on it.  Every branch returns data — the two `throw`s
sit inside the surrounding `try` and are converted by its `catch`. -/
def callOpenRouter (name : AIModel) (enabled testMode hasApiKey : Bool)
    (mock : MockParams) (prompt : String) (previousResponseId : Option Nat)
    (lookup : Except Unit (Option AIResponseDoc))
    (upstream : List ChatMsg → UpstreamOutcome)
    (elapsed : Nat) (now : Nat) : ModelResponse :=
  if !enabled then
    errorCatchResult name (modelKey name ++ " is not enabled") elapsed now
  else if testMode && !hasApiKey then
    generateMockResponse name mock
  else if !hasApiKey then
    errorCatchResult name
      (modelKey name ++ " API key not configured - Please set OPENROUTER_API_KEY in environment variables")
      elapsed now
  else
    match upstream (buildMessages name prompt previousResponseId lookup) with
    | .success s =>
      let u := s.usage.getD ⟨none, none, none⟩
      { model := name
        response := jsOrString s.content ""
        status := .success
        errorMessage := none
        tokens := ⟨u.promptTokens.getD 0, u.completionTokens.getD 0, u.totalTokens.getD 0⟩
        responseTime := elapsed
        isEdited := false
        createdAt := some now }
    | .failure f => errorCatchResult name (extractErrorMessage f) elapsed now

/-! ## Select preferred response (`selectPreferredResponse`) -/

/-- Shared persistent state touched by the selection endpoint: the aggregate
document (if it exists) and the related project's
`settings.enabledModels` list (if a project document exists). -/
structure SelectState where
  agg : Option AIResponseDoc
  projectModels : Option (List AIModel)
  deriving DecidableEq

/-- HTTP-level outcome of the selection endpoint. -/
inductive HttpResult
  | notFound
  | invalidSelection
  | serverError (msg : String)
  | ok
  deriving DecidableEq

/-- The atomic `findOneAndUpdate` issued on success: `$unset` every other
provider's `<m>_response`, `$set \x7b 'settings.enabledModels': [model],
totalModels: 1, completedModels: 1, failedModels: 0, overallStatus:
'completed' \x7d`.  No document middleware runs and `selectedModel` is not
among the set fields. -/
def selectUpdate (d : AIResponseDoc) (m : AIModel) : AIResponseDoc :=
  let d1 := allModels.foldl (fun acc x => if x = m then acc else setResp acc x none) d
  { d1 with
    enabledModels := [m]
    totalModels := 1
    completedModels := 1
    failedModels := 0
    overallStatus := .completed }

/-- The `selectPreferredResponse` controller (non-empty `model` path):
404 when the aggregate is missing; 400 `'Selected model response does not
exist'` when the chosen provider's subdocument is absent or its `response`
text is falsy; otherwise the atomic update runs, and afterwards — when the
aggregate has a `projectId` — the project's `settings.enabledModels` is
updated to `[model]`.  That project write is inside the function's only
`try`, so when it throws (`projectUpdateFails`) the request ends in the
generic 500 handler even though the aggregate update already persisted. -/
def selectPreferredResponse (st : SelectState) (m : AIModel)
    (projectUpdateFails : Bool) : HttpResult × SelectState :=
  match st.agg with
  | none => (.notFound, st)
  | some d =>
    match getResp d m with
    | none => (.invalidSelection, st)
    | some r =>
      if r.response = "" then (.invalidSelection, st)
      else
        let d1 := selectUpdate d m
        let st1 : SelectState := { st with agg := some d1 }
        match d1.projectId with
        | some _ =>
          if projectUpdateFails then
            (.serverError "Failed to select preferred response", st1)
          else
            (.ok, { st1 with projectModels := st1.projectModels.map (fun _ => [m]) })
        | none => (.ok, st1)

/-! ## Clear selection (`selectPreferredResponse`, `model === ''` branch) -/

/-- The undo branch of selection: reset `selectedModel := null`, restore
`settings.enabledModels` to the providers whose subdocument still exists
(or the full hardcoded five-model list when none remain — the source never
consults the originally requested set), then `save()` (hook runs).
Response subdocuments are not resurrected. -/
def clearSelection (d : AIResponseDoc) (now : Nat) : AIResponseDoc :=
  let existing := presentModels d
  preSave now
    { d with
      selectedModel := none
      enabledModels := if 0 < existing.length then existing else allModels }

/-! ## Retry failed responses (`retryFailedResponses`) -/

/-- The service `generateMultiModelResponse`, called by the retry endpoint
with `enabledModels := failedModels`: it keeps only providers enabled in the
registry, throws `'No AI models are configured and enabled'` when none
remain, and otherwise produces one result per remaining provider
(`callResult` abstracts the per-provider call with its internal catch). -/
def generateMultiModelResponse (enabled : AIModel → Bool)
    (callResult : AIModel → ModelResponse) (enabledModels : List AIModel) :
    Except String (List (AIModel × ModelResponse)) :=
  let availableModels := enabledModels.filter enabled
  if availableModels = [] then .error "No AI models are configured and enabled"
  else .ok (availableModels.map (fun m => (m, callResult m)))

/-- Providers whose subdocument currently has `status === 'error'`
(the `failedModels` scan of the retry endpoint). -/
def failedModelList (d : AIResponseDoc) : List AIModel :=
  allModels.filter (fun m =>
    match getResp d m with
    | some r => r.status == .error
    | none => false)

/-- HTTP-level outcome of the retry endpoint. -/
inductive RetryOutcome
  | nothingToRetry
  | serverError (msg : String)
  | retried
  deriving DecidableEq

/-- The `retryFailedResponses` controller on a found aggregate: 400
`'No failed responses to retry'` when no provider is in `error`; otherwise
the multi-model service runs on exactly the failed subset, each returned
result overwrites its provider's subdocument, and the document is saved
(hook runs).  Returns the HTTP outcome and the final persisted document. -/
def retryFailedResponses (enabled : AIModel → Bool)
    (callResult : AIModel → ModelResponse) (now : Nat) (d : AIResponseDoc) :
    RetryOutcome × AIResponseDoc :=
  let failedModels := failedModelList d
  if failedModels = [] then (.nothingToRetry, d)
  else
    match generateMultiModelResponse enabled callResult failedModels with
    | .error e => (.serverError e, d)
    | .ok pairs =>
      let updated := pairs.foldl (fun acc pr => setResp acc pr.1 (some pr.2)) d
      (.retried, preSave now updated)

/-! ## Manual update and delete of a single model response -/

/-- The validated payload of the manual update endpoint
(`updateModelResponseValidation`): a status plus optional response text,
error message, tokens and response time, passed through to
`aiResponse.updateModelResponse`. -/
structure UpdatePayload where
  response : String
  status : RespStatus
  errorMessage : Option String
  tokens : Tokens
  responseTime : Nat
  deriving DecidableEq

/-- `Object.assign(this[fieldName], responseData)` for a payload carrying
all five keys. -/
def applyUpdatePayload (r : ModelResponse) (u : UpdatePayload) : ModelResponse :=
  { r with
    response := u.response
    status := u.status
    errorMessage := u.errorMessage
    tokens := u.tokens
    responseTime := u.responseTime }

/-- The `aiResponseSchema.methods.updateModelResponse` instance method:
merge the payload into the existing subdocument and `save()` (hook runs).
When the subdocument is absent the method assigns the raw payload, which
lacks the required `model` path, so the save is rejected (`none`). -/
def updateModelResponseMethod (d : AIResponseDoc) (m : AIModel)
    (u : UpdatePayload) (now : Nat) : Option AIResponseDoc :=
  match getResp d m with
  | some r => some (preSave now (setResp d m (some (applyUpdatePayload r u))))
  | none => none

/-- The `deleteSingleModelResponse` handler on a found aggregate: set the
provider's subdocument to `undefined` and `save()` (hook runs). -/
def deleteSingleModelResponse (d : AIResponseDoc) (m : AIModel) (now : Nat) : AIResponseDoc :=
  preSave now (setResp d m none)

/-! ## General lemmas about the embedding -/

/-- Tuple of every non-response field of a document, used for frame lemmas. -/
def nonRespProj (d : AIResponseDoc) :
    String × Option Nat × Nat × Nat × Nat × List AIModel × Option AIModel ×
      OverallStatus × Nat × Option Nat × Nat × Nat × Nat × Nat :=
  (d.prompt, d.projectId, d.totalModels, d.completedModels, d.failedModels,
    d.enabledModels, d.selectedModel, d.overallStatus, d.startTime, d.endTime,
    d.totalDuration, d.totalTokensUsed, d.totalCost, d.updatedAt)

theorem nonRespProj_setResp (d : AIResponseDoc) (a : AIModel) (r : Option ModelResponse) :
    nonRespProj (setResp d a r) = nonRespProj d := by
  cases a <;> rfl

theorem nonRespProj_foldl_setWith (l : List AIModel) (f : AIModel → Option ModelResponse)
    (d : AIResponseDoc) :
    nonRespProj (l.foldl (fun acc x => setResp acc x (f x)) d) = nonRespProj d := by
  induction l generalizing d with
  | nil => rfl
  | cons a t ih => rw [List.foldl_cons, ih, nonRespProj_setResp]

theorem getResp_foldl_setWith (l : List AIModel) (f : AIModel → Option ModelResponse)
    (d : AIResponseDoc) (m : AIModel) :
    getResp (l.foldl (fun acc x => setResp acc x (f x)) d) m
      = if m ∈ l then f m else getResp d m := by
  induction l generalizing d with
  | nil => simp
  | cons a t ih =>
    simp only [List.foldl_cons, ih, getResp_setResp, List.mem_cons]
    by_cases hm : m ∈ t
    · simp [hm]
    · by_cases ha : m = a <;> simp [hm, ha]

theorem totalModels_preSave (now : Nat) (d : AIResponseDoc) :
    (preSave now d).totalModels = d.totalModels := by
  simp only [preSave]; (repeat' split) <;> rfl

theorem startTime_preSave (now : Nat) (d : AIResponseDoc) :
    (preSave now d).startTime = d.startTime := by
  simp only [preSave]; (repeat' split) <;> rfl

theorem hookCompleted_eq_zero (d : AIResponseDoc)
    (h : ∀ m r, getResp d m = some r → r.status = .pending) : hookCompleted d = 0 := by
  unfold hookCompleted
  rw [List.length_eq_zero, List.filter_eq_nil_iff]
  intro r hr
  obtain ⟨m, _, hgr⟩ := List.mem_filterMap.mp hr
  simp [h m r hgr]

theorem hookFailed_eq_zero (d : AIResponseDoc)
    (h : ∀ m r, getResp d m = some r → r.status = .pending) : hookFailed d = 0 := by
  unfold hookFailed
  rw [List.length_eq_zero, List.filter_eq_nil_iff]
  intro r hr
  obtain ⟨m, _, hgr⟩ := List.mem_filterMap.mp hr
  simp [h m r hgr]

theorem preSave_endTime (now : Nat) (d : AIResponseDoc) :
    (preSave now d).endTime = if termCond d then some now else d.endTime := by
  simp only [preSave, termCond]
  by_cases h1 : hookCompleted d = d.totalModels
  · simp [h1]
  · by_cases h2 : 0 < hookCompleted d ∨ 0 < hookFailed d
    · by_cases h3 : hookCompleted d + hookFailed d = d.totalModels
      · simp [h1, h2, h3]
      · simp [h1, h2, h3]
    · simp [h1, h2]

theorem preSave_totalDuration (now : Nat) (d : AIResponseDoc) :
    (preSave now d).totalDuration
      = if termCond d then now - d.startTime else d.totalDuration := by
  simp only [preSave, termCond]
  by_cases h1 : hookCompleted d = d.totalModels
  · simp [h1]
  · by_cases h2 : 0 < hookCompleted d ∨ 0 < hookFailed d
    · by_cases h3 : hookCompleted d + hookFailed d = d.totalModels
      · simp [h1, h2, h3]
      · simp [h1, h2, h3]
    · simp [h1, h2]

theorem patch_endTime (p : CompletionPatch) (d : AIResponseDoc) :
    (applyCompletionPatch p d).endTime = d.endTime := by
  obtain ⟨m, r, t⟩ := p; cases m <;> rfl

theorem patch_totalDuration (p : CompletionPatch) (d : AIResponseDoc) :
    (applyCompletionPatch p d).totalDuration = d.totalDuration := by
  obtain ⟨m, r, t⟩ := p; cases m <;> rfl

/-! ## Claim theorems -/

/-- C10: applying the same provider-completion patch (the same
`findByIdAndUpdate` update document, simulating a retried delivery) twice in
succession leaves the aggregate in the same state as applying it once. -/
theorem c10_patch_idempotent (p : CompletionPatch) (d : AIResponseDoc) :
    applyCompletionPatch p (applyCompletionPatch p d) = applyCompletionPatch p d := by
  obtain ⟨m, r, t⟩ := p
  cases m <;> rfl

theorem mem_allModels (m : AIModel) : m ∈ allModels := by
  cases m <;> simp [allModels]

/-- A duplicate-free model list has the same length as the sublist of
`allModels` carved out by membership in it. -/
theorem length_filter_mem_allModels (l : List AIModel) (hnd : l.Nodup) :
    (allModels.filter (fun m => decide (m ∈ l))).length = l.length := by
  classical
  have hperm : List.Perm (allModels.filter (fun m => decide (m ∈ l))) l := by
    refine (List.perm_ext_iff_of_nodup ?_ hnd).mpr ?_
    · exact List.Nodup.filter _ (by decide)
    · intro a
      simp [List.mem_filter, mem_allModels a]
  exact hperm.length_eq

theorem preSave_of_termCond_false (now : Nat) (d : AIResponseDoc)
    (h : termCond d = false) :
    preSave now d = { d with
      completedModels := hookCompleted d
      failedModels := hookFailed d
      totalTokensUsed := hookTokens d } := by
  simp only [preSave]
  by_cases h1 : hookCompleted d = d.totalModels
  · exact absurd h (by simp [termCond, h1])
  · rw [if_neg h1]
    by_cases h2 : 0 < hookCompleted d ∨ 0 < hookFailed d
    · rw [if_pos h2]
      by_cases h3 : hookCompleted d + hookFailed d = d.totalModels
      · exact absurd h (by simp [termCond, h1, h3]; omega)
      · rw [if_neg h3]
    · rw [if_neg h2]

theorem getResp_submitPendingDoc (prompt : String) (projectId : Option Nat)
    (mtu : List AIModel) (now : Nat) (m : AIModel) :
    getResp (submitPendingDoc prompt projectId mtu now) m
      = if m ∈ mtu then some (initPending m now) else none := by
  unfold submitPendingDoc
  rw [getResp_foldl_setWith]
  split
  · rfl
  · cases m <;> rfl

/-- C4: for a submission whose requested provider set (no duplicates)
intersected with the available providers is non-empty, of size k, the
document returned with HTTP 201 has exactly the k surviving providers'
subdocuments, each `pending`, `totalModels = k`, `overallStatus =
'processing'`, zero counters and no end time; it is saved (and this value
returned to the caller) before the background task patches anything. -/
theorem c4_submit_shape (prompt : String) (projectId : Option Nat)
    (requestedModels availableModels : List AIModel) (now : Nat)
    (hnd : requestedModels.Nodup)
    (hne : requestedModels.filter (fun m => decide (m ∈ availableModels)) ≠ []) :
    ∃ d, generateAIResponse prompt projectId requestedModels availableModels now = .created d ∧
      (∀ m, getResp d m =
        if m ∈ requestedModels.filter (fun m => decide (m ∈ availableModels))
        then some (initPending m now) else none) ∧
      (presentModels d).length
        = (requestedModels.filter (fun m => decide (m ∈ availableModels))).length ∧
      d.totalModels = (requestedModels.filter (fun m => decide (m ∈ availableModels))).length ∧
      d.overallStatus = .processing ∧
      d.completedModels = 0 ∧
      d.failedModels = 0 ∧
      d.endTime = none := by
  classical
  set mtu := requestedModels.filter (fun m => decide (m ∈ availableModels)) with hmtu
  set W := submitPendingDoc prompt projectId mtu now with hWdef
  have hW : ∀ m, getResp W m = if m ∈ mtu then some (initPending m now) else none := by
    intro m; rw [hWdef]; exact getResp_submitPendingDoc prompt projectId mtu now m
  have hpend : ∀ m r, getResp W m = some r → r.status = .pending := by
    intro m r h
    rw [hW m] at h
    split at h
    · cases h; rfl
    · cases h
  have hc0 : hookCompleted W = 0 := hookCompleted_eq_zero W hpend
  have hf0 : hookFailed W = 0 := hookFailed_eq_zero W hpend
  have hproj := nonRespProj_foldl_setWith mtu (fun x => some (initPending x now))
    (submitBaseDoc prompt projectId mtu now)
  have htm : W.totalModels = mtu.length := congrArg (fun p => p.2.2.1) hproj
  have hos : W.overallStatus = .processing :=
    congrArg (fun p => p.2.2.2.2.2.2.2.1) hproj
  have het : W.endTime = none :=
    congrArg (fun p => p.2.2.2.2.2.2.2.2.2.1) hproj
  have hlen : mtu.length ≠ 0 := by
    intro h; exact hne (List.length_eq_zero.mp h)
  have hterm : termCond W = false := by
    simp [termCond, hc0, hf0, htm]
    omega
  refine ⟨preSave now W, ?_, ?_, ?_, ?_, ?_, ?_, ?_, ?_⟩
  · simp only [generateAIResponse]
    rw [if_neg hne]
  · intro m; rw [getResp_preSave, hW m]
  · have hpm : presentModels (preSave now W)
        = allModels.filter (fun m => decide (m ∈ mtu)) := by
      unfold presentModels
      apply List.filter_congr
      intro m _
      rw [getResp_preSave, hW m]
      by_cases hm : m ∈ mtu
      · simp [hm]
      · simp [hm]
    rw [hpm, length_filter_mem_allModels mtu (hnd.filter _)]
  · rw [totalModels_preSave, htm]
  · rw [preSave_of_termCond_false now W hterm]
    exact hos
  · rw [preSave_of_termCond_false now W hterm]
    exact hc0
  · rw [preSave_of_termCond_false now W hterm]
    exact hf0
  · rw [preSave_endTime, hterm]
    exact het

/-- C4 witness: a concrete submission of `"What is AI?"` for the distinct
requested providers gemini and openai, both available, yielding the claimed
two-pending-result shape. -/
theorem c4_submit_shape_witness :
    ([AIModel.gemini, AIModel.openai].Nodup ∧
      [AIModel.gemini, AIModel.openai].filter (fun m => decide (m ∈ allModels)) ≠ []) ∧
    ∃ d, generateAIResponse "What is AI?" none [AIModel.gemini, AIModel.openai]
        allModels 10 = .created d ∧
      (∀ m, getResp d m =
        if m ∈ [AIModel.gemini, AIModel.openai].filter (fun m => decide (m ∈ allModels))
        then some (initPending m 10) else none) ∧
      (presentModels d).length
        = ([AIModel.gemini, AIModel.openai].filter (fun m => decide (m ∈ allModels))).length ∧
      d.totalModels
        = ([AIModel.gemini, AIModel.openai].filter (fun m => decide (m ∈ allModels))).length ∧
      d.overallStatus = .processing ∧
      d.completedModels = 0 ∧
      d.failedModels = 0 ∧
      d.endTime = none :=
  ⟨⟨by decide, by decide⟩,
    c4_submit_shape "What is AI?" none [AIModel.gemini, AIModel.openai] allModels 10
      (by decide) (by decide)⟩

/-- Aggregate for one requested provider whose gemini call has already
succeeded (status `success`, 3 total tokens), not yet saved since. -/
def c3Doc : AIResponseDoc :=
  { prompt := "p"
    projectId := none
    gemini_response := some
      { model := .gemini
        response := "done"
        status := .success
        errorMessage := none
        tokens := ⟨1, 2, 3⟩
        responseTime := 50
        isEdited := false
        createdAt := some 5 }
    openai_response := none
    deepseek_response := none
    microsoft_response := none
    llama_response := none
    totalModels := 1
    completedModels := 0
    failedModels := 0
    enabledModels := [.gemini]
    selectedModel := none
    overallStatus := .processing
    startTime := 0
    endTime := none
    totalDuration := 0
    totalTokensUsed := 0
    totalCost := 0
    updatedAt := 0 }

/-- A manual edit of the gemini response submitted later (keeps `success`). -/
def c3Edit : UpdatePayload :=
  { response := "done, edited"
    status := .success
    errorMessage := none
    tokens := ⟨1, 2, 3⟩
    responseTime := 50 }

/-- C3 counterexample: the save at time 100 makes `c3Doc` terminal
(`completed`) and assigns `endTime = 100`, `totalDuration = 100`; a later
manual-edit mutation at time 200 (which runs the hook again through
`save()`) re-assigns `endTime = 200` and `totalDuration = 200` — so the two
fields are not set exactly once and do change after the aggregate first
became terminal, contradicting the claim. -/
theorem c3_counterexample :
    (preSave 100 c3Doc).overallStatus = .completed ∧
    (preSave 100 c3Doc).endTime = some 100 ∧
    (preSave 100 c3Doc).totalDuration = 100 ∧
    (updateModelResponseMethod (preSave 100 c3Doc) .gemini c3Edit 200).map
      (fun d => (d.overallStatus, d.endTime, d.totalDuration))
      = some (.completed, some 200, 200) ∧
    (some 200 : Option Nat) ≠ some 100 := by
  decide

/-- C3 amended: `endTime` and `totalDuration` are assigned by every
document save whose recomputed counters satisfy the terminal condition
(`termCond`), receiving the current save time — so later saves while the
aggregate stays terminal re-assign them; on a non-terminal save, and on
every background `findByIdAndUpdate` completion patch (which bypasses the
hook), they are left unchanged. -/
theorem c3_endTime_amended (now : Nat) (d : AIResponseDoc) :
    ((preSave now d).endTime = if termCond d then some now else d.endTime) ∧
    ((preSave now d).totalDuration
      = if termCond d then now - d.startTime else d.totalDuration) ∧
    (∀ p : CompletionPatch, (applyCompletionPatch p d).endTime = d.endTime ∧
      (applyCompletionPatch p d).totalDuration = d.totalDuration) :=
  ⟨preSave_endTime now d, preSave_totalDuration now d,
    fun p => ⟨patch_endTime p d, patch_totalDuration p d⟩⟩

/-- The successful gemini completion used for the C1 scenario (42 tokens). -/
def c1GeminiResult : ModelResponse :=
  { model := .gemini
    response := "Artificial intelligence is the simulation of human intelligence."
    status := .success
    errorMessage := none
    tokens := ⟨10, 32, 42⟩
    responseTime := 800
    isEdited := false
    createdAt := some 15 }

/-- The successful openai completion used for the C1 scenario (8 tokens). -/
def c1OpenaiResult : ModelResponse :=
  { model := .openai
    response := "AI refers to machine intelligence."
    status := .success
    errorMessage := none
    tokens := ⟨3, 5, 8⟩
    responseTime := 900
    isEdited := false
    createdAt := some 25 }

/-- The C1 failing scenario: submit `"What is AI?"` for gemini and openai,
then let both background completion patches land. -/
def c1Final : Option AIResponseDoc :=
  (submitDoc (generateAIResponse "What is AI?" none [.gemini, .openai] allModels 10)).map
    (fun d => applyCompletionPatch ⟨.openai, c1OpenaiResult, 30⟩
      (applyCompletionPatch ⟨.gemini, c1GeminiResult, 20⟩ d))

/-- C1: evaluation of the code at the failing input.  After both of the two
requested providers completed with `success` (42 and 8 total tokens), the
per-model `findByIdAndUpdate` patches stored the results but — because query
updates never run the `pre('save')` statistics hook — the document still
has `completedModels = 0`, `failedModels = 0`, `totalTokensUsed = 0` and
`overallStatus = 'processing'`, where the claim requires `2`, `0`, `50` and
`'completed'`.  The final conjunct shows the hook itself, had it run, would
have produced exactly the claimed values. -/
theorem c1_patch_skips_recompute :
    c1Final.map (fun d =>
        (d.completedModels, d.failedModels, d.totalTokensUsed, d.overallStatus, d.totalModels))
      = some (0, 0, 0, .processing, 2) ∧
    (c1Final.bind (fun d => getResp d .gemini)).map (fun r => (r.status, r.tokens.total))
      = some (.success, 42) ∧
    (c1Final.bind (fun d => getResp d .openai)).map (fun r => (r.status, r.tokens.total))
      = some (.success, 8) ∧
    c1Final.map (fun d =>
        ((preSave 40 d).completedModels, (preSave 40 d).failedModels,
          (preSave 40 d).totalTokensUsed, (preSave 40 d).overallStatus))
      = some (2, 0, 50, .completed) := by
  decide

theorem getResp_selectUpdate (d : AIResponseDoc) (m x : AIModel) :
    getResp (selectUpdate d m) x = if x = m then getResp d m else none := by
  cases m <;> cases x <;> rfl

theorem selectUpdate_fields (d : AIResponseDoc) (m : AIModel) :
    (selectUpdate d m).enabledModels = [m] ∧
    (selectUpdate d m).totalModels = 1 ∧
    (selectUpdate d m).completedModels = 1 ∧
    (selectUpdate d m).failedModels = 0 ∧
    (selectUpdate d m).overallStatus = .completed ∧
    (selectUpdate d m).selectedModel = d.selectedModel ∧
    (selectUpdate d m).projectId = d.projectId := by
  cases m <;> exact ⟨rfl, rfl, rfl, rfl, rfl, rfl, rfl⟩

/-- A gemini result with `status: 'success'` but empty response text, as
`callOpenRouter` produces when the upstream 2xx body carries no
`choices[0].message.content`. -/
def c2SuccessEmpty : ModelResponse :=
  { model := .gemini
    response := ""
    status := .success
    errorMessage := none
    tokens := ⟨1, 1, 2⟩
    responseTime := 5
    isEdited := false
    createdAt := some 1 }

/-- Aggregate holding `c2SuccessEmpty` for gemini. -/
def c2DocA : AIResponseDoc :=
  { prompt := "p"
    projectId := none
    gemini_response := some c2SuccessEmpty
    openai_response := none
    deepseek_response := none
    microsoft_response := none
    llama_response := none
    totalModels := 1
    completedModels := 1
    failedModels := 0
    enabledModels := [.gemini]
    selectedModel := none
    overallStatus := .completed
    startTime := 0
    endTime := some 9
    totalDuration := 9
    totalTokensUsed := 2
    totalCost := 0
    updatedAt := 9 }

/-- Aggregate holding a successful gemini result with non-empty text. -/
def c2DocB : AIResponseDoc :=
  { c2DocA with
    gemini_response := some { c2SuccessEmpty with response := "hello" } }

/-- C2 counterexample: (1) on `c2DocA` the chosen provider's result has
`status = 'success'`, yet selection fails with `InvalidSelection` (the code
guards on non-empty `response` text, not on status), leaving the state
unchanged; (2) on `c2DocB` selection succeeds but the stored aggregate's
`selectedModel` stays `null` — the update never sets it — contradicting
"selectedProvider is set to p". -/
theorem c2_counterexample :
    ((getResp c2DocA .gemini).map (fun r => r.status) = some .success ∧
      (selectPreferredResponse ⟨some c2DocA, none⟩ .gemini false).1 = .invalidSelection ∧
      (selectPreferredResponse ⟨some c2DocA, none⟩ .gemini false).2 = ⟨some c2DocA, none⟩) ∧
    ((selectPreferredResponse ⟨some c2DocB, none⟩ .gemini false).1 = .ok ∧
      ((selectPreferredResponse ⟨some c2DocB, none⟩ .gemini false).2.agg.map
        (fun d => d.selectedModel)) = some none ∧
      (some (none : Option AIModel) ≠ some (some AIModel.gemini))) := by
  decide

/-- C2 amended: selection succeeds exactly when the chosen provider's result
is present with non-empty response text; on success the aggregate afterward
contains exactly that provider's result, `settings.enabledModels = [p]`,
`overallStatus = 'completed'`, `totalModels = completedModels = 1`,
`failedModels = 0`, while `selectedModel` is left unchanged; when the result
is absent or its response text is empty, the operation fails with
`InvalidSelection` and the whole state is unchanged. -/
theorem c2_select_amended (d : AIResponseDoc) (m : AIModel) (pm : Option (List AIModel)) :
    (∀ r, getResp d m = some r → r.response ≠ "" →
      (selectPreferredResponse ⟨some d, pm⟩ m false).1 = .ok ∧
      (selectPreferredResponse ⟨some d, pm⟩ m false).2.agg = some (selectUpdate d m) ∧
      (∀ x, getResp (selectUpdate d m) x = if x = m then getResp d m else none) ∧
      (selectUpdate d m).enabledModels = [m] ∧
      (selectUpdate d m).totalModels = 1 ∧
      (selectUpdate d m).completedModels = 1 ∧
      (selectUpdate d m).failedModels = 0 ∧
      (selectUpdate d m).overallStatus = .completed ∧
      (selectUpdate d m).selectedModel = d.selectedModel) ∧
    ((getResp d m = none ∨ (∃ r, getResp d m = some r ∧ r.response = "")) →
      selectPreferredResponse ⟨some d, pm⟩ m false = (.invalidSelection, ⟨some d, pm⟩)) := by
  constructor
  · intro r hr hne
    have hfields := selectUpdate_fields d m
    have hmain : (selectPreferredResponse ⟨some d, pm⟩ m false).1 = .ok ∧
        (selectPreferredResponse ⟨some d, pm⟩ m false).2.agg = some (selectUpdate d m) := by
      simp only [selectPreferredResponse, hr]
      rw [if_neg hne]
      cases hp : (selectUpdate d m).projectId <;> simp [hp]
    exact ⟨hmain.1, hmain.2, getResp_selectUpdate d m, hfields.1, hfields.2.1,
      hfields.2.2.1, hfields.2.2.2.1, hfields.2.2.2.2.1, hfields.2.2.2.2.2.1⟩
  · intro h
    rcases h with h | ⟨r, hr, hre⟩
    · simp only [selectPreferredResponse, h]
    · simp only [selectPreferredResponse, hr]
      rw [if_pos hre]

/-- C2 witness: applying the amended theorem to `c2DocB` (gemini present
with non-empty text) and discharging its hypotheses there. -/
theorem c2_select_amended_witness :
    (selectPreferredResponse ⟨some c2DocB, none⟩ .gemini false).1 = HttpResult.ok ∧
    (selectPreferredResponse ⟨some c2DocB, none⟩ .gemini false).2.agg
      = some (selectUpdate c2DocB .gemini) ∧
    (∀ x, getResp (selectUpdate c2DocB .gemini) x
      = if x = .gemini then getResp c2DocB .gemini else none) ∧
    (selectUpdate c2DocB .gemini).enabledModels = [.gemini] ∧
    (selectUpdate c2DocB .gemini).totalModels = 1 ∧
    (selectUpdate c2DocB .gemini).completedModels = 1 ∧
    (selectUpdate c2DocB .gemini).failedModels = 0 ∧
    (selectUpdate c2DocB .gemini).overallStatus = .completed ∧
    (selectUpdate c2DocB .gemini).selectedModel = c2DocB.selectedModel :=
  (c2_select_amended c2DocB .gemini none).1
    { c2SuccessEmpty with response := "hello" } (by decide) (by decide)

/-- C5: for an enabled provider with a configured key, any upstream failure
(network error, non-2xx, timeout — all surfacing as an axios rejection)
yields a `status = 'error'` result with empty response text, zeroed token
usage, `responseTime` equal to the elapsed time up to the failure, and a
message that prefers the upstream-reported detail
(`data.error?.message || data.message || JSON.stringify(data)`) over the
generic transport `error.message`; the caller returns this as data and
never raises past the boundary (the embedding is a total function whose
catch branches are shown here). -/
theorem c5_upstream_failure (name : AIModel) (testMode : Bool) (mock : MockParams)
    (prompt : String) (previousResponseId : Option Nat)
    (lookup : Except Unit (Option AIResponseDoc))
    (upstream : List ChatMsg → UpstreamOutcome) (elapsed now : Nat)
    (f : UpstreamFailure)
    (hf : upstream (buildMessages name prompt previousResponseId lookup) = .failure f) :
    callOpenRouter name true testMode true mock prompt previousResponseId lookup
        upstream elapsed now
      = errorCatchResult name (extractErrorMessage f) elapsed now ∧
    (callOpenRouter name true testMode true mock prompt previousResponseId lookup
        upstream elapsed now).status = .error ∧
    (callOpenRouter name true testMode true mock prompt previousResponseId lookup
        upstream elapsed now).response = "" ∧
    (callOpenRouter name true testMode true mock prompt previousResponseId lookup
        upstream elapsed now).tokens = ⟨0, 0, 0⟩ ∧
    (callOpenRouter name true testMode true mock prompt previousResponseId lookup
        upstream elapsed now).responseTime = elapsed ∧
    (callOpenRouter name true testMode true mock prompt previousResponseId lookup
        upstream elapsed now).errorMessage
      = some (modelKey name ++ " Error: " ++ extractErrorMessage f) ∧
    (∀ b, f.body = some b →
      extractErrorMessage f = jsOrString b.errorDetail (jsOrString b.message b.stringified)) ∧
    (f.body = none → extractErrorMessage f = f.transportMessage) := by
  have hcall : callOpenRouter name true testMode true mock prompt previousResponseId lookup
      upstream elapsed now = errorCatchResult name (extractErrorMessage f) elapsed now := by
    simp [callOpenRouter, hf]
  refine ⟨hcall, ?_, ?_, ?_, ?_, ?_, ?_, ?_⟩
  · rw [hcall]; rfl
  · rw [hcall]; rfl
  · rw [hcall]; rfl
  · rw [hcall]; rfl
  · rw [hcall]; rfl
  · intro b hb; simp [extractErrorMessage, hb]
  · intro hb; simp [extractErrorMessage, hb]

/-- The failure used in the C5 witness: HTTP 429 whose body reports
`'Rate limit exceeded'`. -/
def c5Fail : UpstreamFailure :=
  { transportMessage := "Request failed with status code 429"
    body := some
      { errorDetail := some "Rate limit exceeded"
        message := none
        stringified := "RAW" } }

/-- Mock parameters (unused on the keyed path) for the C5 witness. -/
def c5Mock : MockParams :=
  { text := "mock", tok := ⟨0, 0, 0⟩, responseTime := 1 }

/-- C5 witness: a concrete gemini call whose upstream always fails with
`c5Fail`, discharging the theorem's hypothesis by `rfl`. -/
theorem c5_upstream_failure_witness :
    ((fun _ : List ChatMsg => UpstreamOutcome.failure c5Fail)
        (buildMessages .gemini "hi" none (.ok none)) = .failure c5Fail) ∧
    callOpenRouter .gemini true false true c5Mock "hi" none (.ok none)
        (fun _ => .failure c5Fail) 123 200
      = errorCatchResult .gemini (extractErrorMessage c5Fail) 123 200 :=
  ⟨rfl, (c5_upstream_failure .gemini false c5Mock "hi" none (.ok none)
    (fun _ => .failure c5Fail) 123 200 c5Fail rfl).1⟩

/-- Decidable form of the per-result invariant claimed in the spec:
`status == error` implies empty response text and an errorMessage present;
`status == success` implies no errorMessage. -/
def responseInvariantHolds (r : ModelResponse) : Bool :=
  match r.status with
  | .error => r.response == "" && r.errorMessage.isSome
  | .success => r.errorMessage.isNone
  | .pending => true

/-- The error fallback built inside `generateMultiModelResponse` when a
per-model call throws or its promise rejects: `{model, response: '',
status: 'error', errorMessage, tokens: zeros, responseTime: 0}`. -/
def multiCatchResult (m : AIModel) (msg : String) : ModelResponse :=
  { model := m
    response := ""
    status := .error
    errorMessage := some msg
    tokens := ⟨0, 0, 0⟩
    responseTime := 0
    isEdited := false
    createdAt := none }

/-- Aggregate whose gemini result is a well-formed success, fed to the C9
counterexample. -/
def c9Doc : AIResponseDoc :=
  { prompt := "p"
    projectId := none
    gemini_response := some
      { model := .gemini
        response := "ok"
        status := .success
        errorMessage := none
        tokens := ⟨1, 1, 2⟩
        responseTime := 7
        isEdited := false
        createdAt := some 1 }
    openai_response := none
    deepseek_response := none
    microsoft_response := none
    llama_response := none
    totalModels := 1
    completedModels := 1
    failedModels := 0
    enabledModels := [.gemini]
    selectedModel := none
    overallStatus := .completed
    startTime := 0
    endTime := some 8
    totalDuration := 8
    totalTokensUsed := 2
    totalCost := 0
    updatedAt := 8 }

/-- A payload the update validator accepts (`status` is any of the enum,
`response` and `errorMessage` free-form): status `'error'` together with
non-empty response text. -/
def c9Update : UpdatePayload :=
  { response := "manually written text"
    status := .error
    errorMessage := some "manual note"
    tokens := ⟨0, 0, 0⟩
    responseTime := 0 }

/-- C9 counterexample: the manual update endpoint
(`updateModelResponse` → `aiResponse.updateModelResponse`), with a
validator-accepted payload, turns a result satisfying the invariant into
one with `status = 'error'` and non-empty response text, violating it. -/
theorem c9_counterexample :
    (getResp c9Doc .gemini).map responseInvariantHolds = some true ∧
    ((updateModelResponseMethod c9Doc .gemini c9Update 50).bind
      (fun d => getResp d .gemini)).map responseInvariantHolds = some false := by
  decide

/-- C9 amended: the invariant does hold for every result produced by the
provider caller (every branch of `callOpenRouter`, including its catch
results and the mock path), by the background error patch, by the
submit-time pending initialization, and by the retry service's error
fallbacks; the manual update path can violate it. -/
theorem c9_invariant_amended :
    (∀ name enabled testMode hasApiKey mock prompt prev lookup upstream elapsed now,
      responseInvariantHolds (callOpenRouter name enabled testMode hasApiKey mock
        prompt prev lookup upstream elapsed now) = true) ∧
    (∀ m msg now, responseInvariantHolds (bgErrorResult m msg now) = true) ∧
    (∀ m now, responseInvariantHolds (initPending m now) = true) ∧
    (∀ name msg elapsed now, responseInvariantHolds (errorCatchResult name msg elapsed now) = true) ∧
    (∀ name mock, responseInvariantHolds (generateMockResponse name mock) = true) ∧
    (∀ m msg, responseInvariantHolds (multiCatchResult m msg) = true) := by
  refine ⟨?_, ?_, ?_, ?_, ?_, ?_⟩
  · intro name enabled testMode hasApiKey mock prompt prev lookup upstream elapsed now
    cases enabled <;> cases testMode <;> cases hasApiKey <;>
      rcases hup : upstream (buildMessages name prompt prev lookup) with s | f <;>
        simp [callOpenRouter, hup, responseInvariantHolds, errorCatchResult,
          generateMockResponse]
  · intro m msg now; rfl
  · intro m now; rfl
  · intro name msg elapsed now; rfl
  · intro name mock; rfl
  · intro m msg; rfl

/-- Gemini error result sitting on the C6 aggregate before the retry. -/
def c6ErrGemini : ModelResponse :=
  { model := .gemini
    response := ""
    status := .error
    errorMessage := some "gemini Error: boom"
    tokens := ⟨0, 0, 0⟩
    responseTime := 3
    isEdited := false
    createdAt := some 2 }

/-- Openai error result sitting on the C6 aggregate before the retry. -/
def c6ErrOpenai : ModelResponse :=
  { model := .openai
    response := ""
    status := .error
    errorMessage := some "openai Error: boom"
    tokens := ⟨0, 0, 0⟩
    responseTime := 4
    isEdited := false
    createdAt := some 2 }

/-- Aggregate with two failed providers (j = 2). -/
def c6Doc : AIResponseDoc :=
  { prompt := "p"
    projectId := none
    gemini_response := some c6ErrGemini
    openai_response := some c6ErrOpenai
    deepseek_response := none
    microsoft_response := none
    llama_response := none
    totalModels := 2
    completedModels := 0
    failedModels := 2
    enabledModels := [.gemini, .openai]
    selectedModel := none
    overallStatus := .failed
    startTime := 0
    endTime := some 6
    totalDuration := 6
    totalTokensUsed := 0
    totalCost := 0
    updatedAt := 6 }

/-- Registry state for the C6 counterexample: only gemini is enabled
(e.g. only GEMINI_API_KEY is set after a restart). -/
def c6Enabled : AIModel → Bool :=
  fun m => m == .gemini

/-- Fresh results the retried provider calls produce. -/
def c6CallResult : AIModel → ModelResponse :=
  fun m =>
    { model := m
      response := "retried fine"
      status := .success
      errorMessage := none
      tokens := ⟨1, 1, 2⟩
      responseTime := 4
      isEdited := false
      createdAt := some 9 }

/-- C6 counterexample: `c6Doc` has j = 2 providers in `error`, the retry
returns success (HTTP 200), yet only the enabled gemini result is
overwritten — openai keeps its old error result because
`generateMultiModelResponse` filters the failed subset by registry
enabledness, contradicting "exactly those j ProviderResults are
overwritten". -/
theorem c6_counterexample :
    failedModelList c6Doc = [.gemini, .openai] ∧
    (retryFailedResponses c6Enabled c6CallResult 100 c6Doc).1 = .retried ∧
    getResp (retryFailedResponses c6Enabled c6CallResult 100 c6Doc).2 .gemini
      = some (c6CallResult .gemini) ∧
    getResp (retryFailedResponses c6Enabled c6CallResult 100 c6Doc).2 .openai
      = some c6ErrOpenai ∧
    some c6ErrOpenai ≠ some (c6CallResult .openai) := by
  decide

/-- C6 amended: the retry fails with `NothingToRetry` (HTTP 400, nothing
mutated) exactly when no provider is in `error`; when some are but none of
them is enabled in the registry, it fails with the generic 500
(`'No AI models are configured and enabled'`), also mutating nothing;
otherwise exactly the failed providers that are currently enabled are
overwritten with the retry results and every other provider's result —
pending, success, or failed-but-disabled — is untouched. -/
theorem c6_retry_amended (enabled : AIModel → Bool)
    (callResult : AIModel → ModelResponse) (now : Nat) (d : AIResponseDoc) :
    ((retryFailedResponses enabled callResult now d).1 = .nothingToRetry ↔
      failedModelList d = []) ∧
    (failedModelList d = [] → (retryFailedResponses enabled callResult now d).2 = d) ∧
    (failedModelList d ≠ [] → (failedModelList d).filter enabled = [] →
      retryFailedResponses enabled callResult now d
        = (.serverError "No AI models are configured and enabled", d)) ∧
    ((failedModelList d).filter enabled ≠ [] →
      (retryFailedResponses enabled callResult now d).1 = .retried ∧
      ∀ m, getResp (retryFailedResponses enabled callResult now d).2 m
        = if m ∈ (failedModelList d).filter enabled
          then some (callResult m) else getResp d m) := by
  by_cases hF : failedModelList d = []
  · have hrun : retryFailedResponses enabled callResult now d = (.nothingToRetry, d) := by
      simp [retryFailedResponses, hF]
    refine ⟨?_, fun _ => by rw [hrun], fun h => absurd hF h, fun hA => ?_⟩
    · rw [hrun]; simpa using hF
    · exact absurd (by rw [hF]; rfl) hA
  · by_cases hA : (failedModelList d).filter enabled = []
    · have hrun : retryFailedResponses enabled callResult now d
          = (.serverError "No AI models are configured and enabled", d) := by
        simp [retryFailedResponses, generateMultiModelResponse, hF, hA]
      refine ⟨?_, fun h => absurd h hF, fun _ _ => hrun, fun hA2 => absurd hA hA2⟩
      rw [hrun]
      simp [hF]
    · have hrun : retryFailedResponses enabled callResult now d
          = (.retried, preSave now
              ((((failedModelList d).filter enabled).map (fun m => (m, callResult m))).foldl
                (fun acc pr => setResp acc pr.1 (some pr.2)) d)) := by
        simp [retryFailedResponses, generateMultiModelResponse, hF, hA]
      refine ⟨?_, fun h => absurd h hF, fun _ h => absurd h hA, fun _ => ⟨by rw [hrun], ?_⟩⟩
      · rw [hrun]; simp [hF]
      · intro m
        rw [hrun]
        simp only [getResp_preSave, List.foldl_map]
        exact getResp_foldl_setWith ((failedModelList d).filter enabled)
          (fun x => some (callResult x)) d m

/-- C6 witness: the amended theorem applied to `c6Doc` with only gemini
enabled, discharging the nonemptiness hypothesis of the overwrite clause. -/
theorem c6_retry_amended_witness :
    (failedModelList c6Doc).filter c6Enabled ≠ [] ∧
    ((retryFailedResponses c6Enabled c6CallResult 100 c6Doc).1 = .retried ∧
      ∀ m, getResp (retryFailedResponses c6Enabled c6CallResult 100 c6Doc).2 m
        = if m ∈ (failedModelList c6Doc).filter c6Enabled
          then some (c6CallResult m) else getResp c6Doc m) :=
  ⟨by decide, (c6_retry_amended c6Enabled c6CallResult 100 c6Doc).2.2.2 (by decide)⟩

/-- Aggregate with a selectable gemini result and a related project. -/
def c7Doc : AIResponseDoc :=
  { c2DocB with projectId := some 7 }

/-- C7 counterexample: the project-settings propagation after a successful
selection is not guarded; when it throws, the request ends in the generic
500 handler (`'Failed to select preferred response'`) — the primary
operation reports failure — even though the aggregate update had already
been persisted and the project settings were left untouched. -/
theorem c7_counterexample :
    (selectPreferredResponse ⟨some c7Doc, some [.gemini, .openai]⟩ .gemini true).1
      = .serverError "Failed to select preferred response" ∧
    (selectPreferredResponse ⟨some c7Doc, some [.gemini, .openai]⟩ .gemini true).2.agg
      = some (selectUpdate c7Doc .gemini) ∧
    (selectPreferredResponse ⟨some c7Doc, some [.gemini, .openai]⟩ .gemini true).2.projectModels
      = some [.gemini, .openai] ∧
    HttpResult.serverError "Failed to select preferred response" ≠ .ok := by
  decide

/-- C7 amended: the prior-turn context lookup in the provider caller is
genuinely best-effort — a lookup failure is logged, swallowed, and the call
behaves exactly as if no prior turn existed; the project propagation after
selection, however, is not guarded: its failure makes the request report
HTTP 500 even though the selection was already durably applied to the
aggregate (the project settings stay unchanged). -/
theorem c7_besteffort_amended :
    (∀ (name : AIModel) (enabled testMode hasApiKey : Bool) (mock : MockParams)
        (prompt : String) (prev : Option Nat)
        (upstream : List ChatMsg → UpstreamOutcome) (elapsed now : Nat),
      callOpenRouter name enabled testMode hasApiKey mock prompt prev
          (.error ()) upstream elapsed now
        = callOpenRouter name enabled testMode hasApiKey mock prompt prev
          (.ok none) upstream elapsed now) ∧
    (∀ (d : AIResponseDoc) (m : AIModel) (pm : Option (List AIModel)) (r : ModelResponse),
      getResp d m = some r → r.response ≠ "" → d.projectId.isSome = true →
      selectPreferredResponse ⟨some d, pm⟩ m true
        = (.serverError "Failed to select preferred response",
            ⟨some (selectUpdate d m), pm⟩)) := by
  constructor
  · intro name enabled testMode hasApiKey mock prompt prev upstream elapsed now
    have hb : buildMessages name prompt prev (Except.error ())
        = buildMessages name prompt prev (Except.ok none) := by
      cases prev <;> rfl
    simp only [callOpenRouter, hb]
  · intro d m pm r hr hne hp
    obtain ⟨pid, hpid⟩ := Option.isSome_iff_exists.mp hp
    have hdp : (selectUpdate d m).projectId = some pid :=
      ((selectUpdate_fields d m).2.2.2.2.2.2).trans hpid
    simp only [selectPreferredResponse, hr]
    rw [if_neg hne]
    simp [hdp]

/-- C7 witness: both clauses of the amended theorem at concrete inputs —
a gemini call whose history lookup fails, and the `c7Doc` selection with a
throwing project update. -/
theorem c7_besteffort_amended_witness :
    (callOpenRouter .gemini true false true c5Mock "hi" (some 3) (.error ())
        (fun _ => .failure c5Fail) 5 6
      = callOpenRouter .gemini true false true c5Mock "hi" (some 3) (.ok none)
        (fun _ => .failure c5Fail) 5 6) ∧
    (getResp c7Doc .gemini = some { c2SuccessEmpty with response := "hello" } ∧
      c7Doc.projectId.isSome = true ∧
      selectPreferredResponse ⟨some c7Doc, some [.gemini, .openai]⟩ .gemini true
        = (.serverError "Failed to select preferred response",
            ⟨some (selectUpdate c7Doc .gemini), some [.gemini, .openai]⟩)) :=
  ⟨c7_besteffort_amended.1 .gemini true false true c5Mock "hi" (some 3)
      (fun _ => .failure c5Fail) 5 6,
    by decide,
    by decide,
    c7_besteffort_amended.2 c7Doc .gemini (some [.gemini, .openai])
      { c2SuccessEmpty with response := "hello" } (by decide) (by decide) (by decide)⟩

/-- The C8 trace starts by submitting for the two-provider original set
`{gemini, openai}`. -/
def c8Seed : Option AIResponseDoc :=
  submitDoc (generateAIResponse "trace" none [.gemini, .openai] allModels 0)

/-- Successful gemini completion of the C8 trace. -/
def c8ResG : ModelResponse :=
  { model := .gemini
    response := "G"
    status := .success
    errorMessage := none
    tokens := ⟨1, 1, 2⟩
    responseTime := 5
    isEdited := false
    createdAt := some 1 }

/-- Successful openai completion of the C8 trace. -/
def c8ResO : ModelResponse :=
  { model := .openai
    response := "O"
    status := .success
    errorMessage := none
    tokens := ⟨1, 2, 3⟩
    responseTime := 5
    isEdited := false
    createdAt := some 1 }

/-- C8 trace: both completions land, gemini is selected (removing openai's
result), gemini's result is then deleted, and finally the selection is
cleared. -/
def c8Final : Option AIResponseDoc :=
  ((c8Seed.map (fun d => applyCompletionPatch ⟨.openai, c8ResO, 3⟩
      (applyCompletionPatch ⟨.gemini, c8ResG, 2⟩ d))).bind
    (fun d => (selectPreferredResponse ⟨some d, none⟩ .gemini false).2.agg)).map
      (fun d => clearSelection (deleteSingleModelResponse d .gemini 4) 5)

/-- C8 counterexample: at the end of the trace no `ProviderResult` remains,
and `clearSelection` restores `settings.enabledModels` to the full
hardcoded five-provider list — not to the aggregate's original provider set
`[gemini, openai]` — contradicting the claim's fallback. -/
theorem c8_counterexample :
    c8Final.map (fun d => presentModels d) = some [] ∧
    c8Final.map (fun d => d.enabledModels) = some allModels ∧
    some allModels ≠ some [AIModel.gemini, AIModel.openai] ∧
    c8Final.map (fun d => d.selectedModel) = some none := by
  decide

/-- C8 amended: `clearSelection` clears `selectedModel`, never resurrects a
removed `ProviderResult` (every provider's subdocument is exactly as
before), and restores `settings.enabledModels` to the providers that still
have a result present — or, when none remain, to the full hardcoded list of
all five known providers (not the aggregate's original provider set). -/
theorem c8_clear_amended (d : AIResponseDoc) (now : Nat) :
    (clearSelection d now).selectedModel = none ∧
    (∀ m, getResp (clearSelection d now) m = getResp d m) ∧
    (clearSelection d now).enabledModels
      = (if 0 < (presentModels d).length then presentModels d else allModels) := by
  refine ⟨?_, ?_, ?_⟩
  · simp only [clearSelection]
    rw [selectedModel_preSave]
  · intro m
    simp only [clearSelection]
    rw [getResp_preSave]
    cases m <;> rfl
  · simp only [clearSelection]
    rw [enabledModels_preSave]

end Auroro
